import Mathlib

/-
  Verification of the VirtualiZarr manifest-array core
  (src/virtualizarr/manifests/array.py) against its specification.

  The Python module is shallowly embedded: classes become structures,
  properties become functions, raised exceptions become `Except PyError`,
  and the `NotImplemented` sentinel of the array-protocol hooks becomes an
  explicit `HookResult.notHandled` constructor.  Machine integers produced
  by numpy (`np.prod` accumulates in int64 on the reference platform) are
  modelled as `Int` with explicit wraparound modulo 2^64.

  The collaborating modules `..zarr` (ZArray, Codec) and `.manifest`
  (ChunkManifest, concat_manifests) are not part of the source tree given;
  their definitions below are modelled from the spec and marked as such.
-/

namespace VirtualiZarr

/-- Modelled from the spec: a Byte-Range Reference, the smallest unit of the
chunk-manifest data model — an opaque location plus byte offset and length
(spec section 3), from the missing `.manifest` module. -/
structure ChunkEntry where
  path : String
  offset : Nat
  length : Nat
deriving DecidableEq, Repr

/-- Modelled from the spec: a Chunk Manifest — a grid shape (number of
chunks per dimension) together with a coordinate-indexed mapping of chunk
grid positions to Byte-Range References (spec section 3), from the missing
`.manifest` module.  Coordinates are lists of non-negative integers. -/
structure ChunkManifest where
  grid_shape : List Nat
  entries : List (List Nat × ChunkEntry)
deriving DecidableEq, Repr

/-- Modelled from the spec: the opaque, equality-comparable encoding
descriptor ("codec": compression plus serialization parameters, spec
section 3), from the missing `..zarr` module. -/
structure Codec where
  compressor : String
  filters : String
deriving DecidableEq, Repr

/-- Modelled from the spec: the Array Metadata Descriptor ("zarray"):
shape, chunk shape, a portable dtype descriptor and a codec (spec
section 3), from the missing `..zarr` module.  The dtype descriptor is
kept as its canonical string form. -/
structure ZArray where
  shape : List Nat
  chunks : List Nat
  dtype : String
  codec : Codec
deriving DecidableEq, Repr

/-- Python exceptions that the embedded module can raise, each carrying
its message string. -/
inductive PyError where
  | valueError (msg : String)
  | notImplementedError (msg : String)
  | attributeError (msg : String)
deriving DecidableEq, Repr

/-- Kind discriminator: is this error a `ValueError`? -/
def PyError.isValueError : PyError → Bool
  | .valueError _ => true
  | _ => false

/-- Kind discriminator: is this error a `NotImplementedError`? -/
def PyError.isNotImplementedError : PyError → Bool
  | .notImplementedError _ => true
  | _ => false

/-- Modelled from the spec: `np.dtype` applied to a canonical dtype
descriptor string returns the descriptor itself (normalization is the
identity on already-canonical portable descriptors). -/
def np_dtype (s : String) : String := s

/-- Embeds the `ManifestArray` class.  The `_zarray` field is an `Option`
because `concatenate` stores the result of the `_replace_shape` stub,
which is `None`, into this slot of the object it constructs. -/
structure ManifestArray where
  _manifest : ChunkManifest
  _zarray : Option ZArray
deriving DecidableEq, Repr

/-- Embeds `ManifestArray.__init__(zarray, chunkmanifest)`. -/
def ManifestArray.init (zarray : ZArray) (chunkmanifest : ChunkManifest) : ManifestArray :=
  { _manifest := chunkmanifest, _zarray := some zarray }

/-- Embeds the `manifest` property: returns `self._manifest`. -/
def ManifestArray.manifest (a : ManifestArray) : ChunkManifest := a._manifest

/-- Embeds the `zarray` property: returns `self._zarray`. -/
def ManifestArray.zarray (a : ManifestArray) : Option ZArray := a._zarray

/-- Embeds the `chunks` property: `tuple(self.zarray.chunks)`; accessing an
attribute on a `None` zarray raises `AttributeError`. -/
def ManifestArray.chunks (a : ManifestArray) : Except PyError (List Nat) :=
  match a._zarray with
  | none => .error (.attributeError "NoneType object has no attribute chunks")
  | some z => .ok z.chunks

/-- Embeds the `dtype` property: `np.dtype(self.zarray.dtype)`. -/
def ManifestArray.dtype (a : ManifestArray) : Except PyError String :=
  match a._zarray with
  | none => .error (.attributeError "NoneType object has no attribute dtype")
  | some z => .ok (np_dtype z.dtype)

/-- Embeds the `shape` property: `tuple(int(length) for length in
list(self.zarray.shape))`; `int` is the identity on the Nat entries. -/
def ManifestArray.shape (a : ManifestArray) : Except PyError (List Nat) :=
  match a._zarray with
  | none => .error (.attributeError "NoneType object has no attribute shape")
  | some z => .ok (z.shape.map (fun n => n))

/-- Embeds the `ndim` property: `len(self.shape)`. -/
def ManifestArray.ndim (a : ManifestArray) : Except PyError Nat :=
  match a.shape with
  | .error e => .error e
  | .ok s => .ok s.length

/-- Embeds the inline attribute access `arr.zarray.codec` used by
`concatenate`. -/
def ManifestArray.zarray_codec (a : ManifestArray) : Except PyError Codec :=
  match a._zarray with
  | none => .error (.attributeError "NoneType object has no attribute codec")
  | some z => .ok z.codec

/-- Signed 64-bit wraparound, the overflow behaviour of numpy int64
arithmetic: reduce modulo 2^64 into the range [-2^63, 2^63). -/
def int64_wrap (n : Int) : Int :=
  (n + 9223372036854775808) % 18446744073709551616 - 9223372036854775808

/-- The exact mathematical product of a list of naturals (the reference
value that `size` is specified to return). -/
def listProd : List Nat → Nat
  | [] => 1
  | x :: rest => x * listProd rest

/-- Accumulator loop of `np.prod` over int64: each multiplication wraps. -/
def np_prod_go (acc : Int) : List Nat → Int
  | [] => acc
  | x :: rest => np_prod_go (int64_wrap (acc * (x : Int))) rest

/-- Embeds `np.prod` on a shape tuple: left-to-right product accumulated
in a signed 64-bit integer, wrapping on overflow. -/
def np_prod_int64 (l : List Nat) : Int := np_prod_go 1 l

/-- Embeds the `size` property: `np.prod(self.shape)`. -/
def ManifestArray.size (a : ManifestArray) : Except PyError Int :=
  match a.shape with
  | .error e => .error e
  | .ok s => .ok (np_prod_int64 s)

/-- Embeds the `T` property: `raise NotImplementedError()`. -/
def ManifestArray.T (_a : ManifestArray) : Except PyError ManifestArray :=
  .error (.notImplementedError "")

/-- Embeds `to_zarr(self, store)`: always raises. -/
def ManifestArray.to_zarr (_a : ManifestArray) (_store : String) : Except PyError Unit :=
  .error (.notImplementedError
    "Requires the chunk manifest ZEP to be formalized before we know what to write out here.")

/-- Embeds `__array__`: always raises; since no dense array is ever
produced the success type is `Unit`. -/
def ManifestArray.dunder_array (_a : ManifestArray) : Except PyError Unit :=
  .error (.notImplementedError
    "ManifestArrays can\x27t be converted into numpy arrays or pandas Index objects")

/-- Python `repr` of a shape tuple, as interpolated into f-string error
messages: `(3, 4)`, with the trailing comma form `(3,)` for singletons. -/
def pyReprShapeTail : List Nat → String
  | [] => ""
  | x :: rest => ", " ++ toString x ++ pyReprShapeTail rest

/-- Python `repr` of a shape tuple. -/
def pyReprShape : List Nat → String
  | [] => "()"
  | [x] => "(" ++ toString x ++ ",)"
  | x :: rest => "(" ++ toString x ++ pyReprShapeTail rest ++ ")"

/-- Python `repr` of a list of shape tuples, as produced by
`f"{[shape for shape in shapes]}"`. -/
def pyReprShapesTail : List (List Nat) → String
  | [] => ""
  | s :: rest => ", " ++ pyReprShape s ++ pyReprShapesTail rest

/-- Python `repr` of a list of shape tuples. -/
def pyReprShapes : List (List Nat) → String
  | [] => "[]"
  | s :: rest => "[" ++ pyReprShape s ++ pyReprShapesTail rest ++ "]"

/-- Modelled from the spec: the string form of a codec descriptor as it
appears interpolated into an error message (the descriptor is opaque but
printable; the missing `..zarr` module defines its repr). -/
def Codec.pyRepr (c : Codec) : String :=
  "Codec(compressor=" ++ c.compressor ++ ", filters=" ++ c.filters ++ ")"

/-- Message of the dtype-mismatch `ValueError` raised by
`_check_same_dtypes` (note the order: the offending other dtype first). -/
def dtype_mismatch_msg (other first : String) : String :=
  "Cannot concatenate arrays with inconsistent dtypes: " ++ other ++ " vs " ++ first

/-- Message of the shape-mismatch `ValueError` raised by
`_check_same_shapes_except_on_concat_axis`: it renders the full list of
input shapes. -/
def shape_mismatch_msg (shapes : List (List Nat)) : String :=
  "Cannot concatenate arrays with shapes " ++ pyReprShapes shapes

/-- Message of the codec-mismatch `NotImplementedError` raised by
`_check_same_codecs` (the source concatenates three string literals, which
is why there is no space before "See"). -/
def codec_mismatch_msg (first other : Codec) : String :=
  "The ManifestArray class cannot concatenate arrays which were stored using different codecs, "
    ++ "But found codecs " ++ first.pyRepr ++ " vs " ++ other.pyRepr ++ " ."
    ++ "See https://github.com/zarr-developers/zarr-specs/issues/288"

/-- Message of the `ValueError` Python raises when `first, *rest = xs`
is unpacked from an empty list. -/
def unpack_error_msg : String :=
  "not enough values to unpack (expected at least 1, got 0)"

/-- Loop of `_check_same_dtypes`: compare every later dtype against the
first, raising at the first mismatch. -/
def check_dtypes_rest (first : String) : List String → Except PyError Unit
  | [] => .ok ()
  | other :: rest =>
    if other = first then check_dtypes_rest first rest
    else .error (.valueError (dtype_mismatch_msg other first))

/-- Embeds `_check_same_dtypes(dtypes)`; unpacking `first, *rest` from an
empty list raises `ValueError`. -/
def _check_same_dtypes (dtypes : List String) : Except PyError Unit :=
  match dtypes with
  | [] => .error (.valueError unpack_error_msg)
  | first :: others => check_dtypes_rest first others

/-- Embeds `_remove_element_at_position(t, pos)`: `list(t).pop(pos)` then
re-tupling.  (For `pos` within range this drops the entry at `pos`; the
out-of-range case, where Python would raise IndexError, is never exercised
by the claims, which all assume a valid axis.) -/
def _remove_element_at_position (t : List Nat) (pos : Nat) : List Nat :=
  t.eraseIdx pos

/-- Loop of `_check_same_shapes_except_on_concat_axis`: compare every
later off-axis shape against the first; the raised message renders the
original full shapes. -/
def check_shapes_rest (shapes : List (List Nat)) (first : List Nat) :
    List (List Nat) → Except PyError Unit
  | [] => .ok ()
  | other :: rest =>
    if other = first then check_shapes_rest shapes first rest
    else .error (.valueError (shape_mismatch_msg shapes))

/-- Embeds `_check_same_shapes_except_on_concat_axis(shapes, axis)`. -/
def _check_same_shapes_except_on_concat_axis (shapes : List (List Nat)) (axis : Nat) :
    Except PyError Unit :=
  match shapes.map (fun s => _remove_element_at_position s axis) with
  | [] => .error (.valueError unpack_error_msg)
  | first :: others => check_shapes_rest shapes first others

/-- Loop of `_check_same_codecs`: compare every later codec against the
first, raising `NotImplementedError` at the first mismatch. -/
def check_codecs_rest (first : Codec) : List Codec → Except PyError Unit
  | [] => .ok ()
  | codec :: rest =>
    if codec = first then check_codecs_rest first rest
    else .error (.notImplementedError (codec_mismatch_msg first codec))

/-- Embeds `_check_same_codecs(codecs)`. -/
def _check_same_codecs (codecs : List Codec) : Except PyError Unit :=
  match codecs with
  | [] => .error (.valueError unpack_error_msg)
  | first :: others => check_codecs_rest first others

/-- Shift one chunk coordinate by `off` along `axis`, leaving the other
components unchanged. -/
def shift_coord (axis off : Nat) (c : List Nat) : List Nat :=
  c.set axis (c.getD axis 0 + off)

/-- Modelled from the spec: the entry-relabelling loop of the manifest
`concat` algorithm (spec section 4.1, missing `.manifest` module): the
offset of manifest i is the sum of the axis grid lengths of manifests
0..i-1, and each entry keeps its coordinate except on `axis`, where it is
shifted by that offset. -/
def concat_entries (axis : Nat) : List ChunkManifest → Nat → List (List Nat × ChunkEntry)
  | [], _ => []
  | m :: ms, off =>
      m.entries.map (fun ce => (shift_coord axis off ce.1, ce.2)) ++
      concat_entries axis ms (off + m.grid_shape.getD axis 0)

/-- Modelled from the spec: `concat_manifests(manifests, axis)` of the
missing `.manifest` module (spec section 4.1): the new grid shape is the
first manifest grid shape with the `axis` entry replaced by the sum over
inputs, and the entries are the offset-shifted entries of all inputs; an
empty input list is an invalid-argument failure. -/
def concat_manifests (manifests : List ChunkManifest) (axis : Nat) : Option ChunkManifest :=
  match manifests with
  | [] => none
  | first :: _ =>
      some
        { grid_shape :=
            first.grid_shape.set axis
              ((manifests.map (fun m => m.grid_shape.getD axis 0)).sum),
          entries := concat_entries axis manifests 0 }

/-- The value bound to `new_shape` at the call site of `_replace_shape`:
line 173 of the source rebinds `new_shape = ...`, so the argument is the
`Ellipsis` object, not the shape list computed just above it. -/
inductive ShapeArg where
  | shapeList (s : List Nat)
  | ellipsisObj
deriving DecidableEq, Repr

/-- Embeds `_replace_shape(zarray, new_shape)`: the body of the source
function is the bare `...` expression, so it ignores both arguments and
returns `None`. -/
def _replace_shape (_zarray : Option ZArray) (_new_shape : ShapeArg) : Option ZArray :=
  none

/-- Embeds a Python list comprehension `[f(arr) for arr in arrays]` over
attribute accesses that can raise: evaluation stops at the first raising
element. -/
def map_attr {β : Type} (f : ManifestArray → Except PyError β) :
    List ManifestArray → Except PyError (List β)
  | [] => .ok []
  | a :: rest =>
    match f a with
    | .error e => .error e
    | .ok b =>
      match map_attr f rest with
      | .error e => .error e
      | .ok bs => .ok (b :: bs)

/-- Embeds module-level `concatenate(arrays, /, *, axis=0)`.  The stages
mirror the source line by line: the `axis is None` guard, the dtype
check, the shape check, the codec check, the (immediately discarded)
computation of the intended new shape, the manifest concatenation, and
the construction of the result from `_replace_shape`, whose stub returns
`None`.  The Python default `axis=0` is the Lean default argument. -/
def concatenate (arrays : List ManifestArray) (axis : Option Nat := some 0) :
    Except PyError ManifestArray :=
  match axis with
  | none =>
      .error (.notImplementedError
        "If axis=None the array API requires flattening, which is a reshape, which can\x27t be implemented on a ManifestArray.")
  | some ax =>
    match map_attr ManifestArray.dtype arrays with
    | .error e => .error e
    | .ok dtypes =>
      match _check_same_dtypes dtypes with
      | .error e => .error e
      | .ok _ =>
        match map_attr ManifestArray.shape arrays with
        | .error e => .error e
        | .ok shapes =>
          match _check_same_shapes_except_on_concat_axis shapes ax with
          | .error e => .error e
          | .ok _ =>
            match map_attr ManifestArray.zarray_codec arrays with
            | .error e => .error e
            | .ok codecs =>
              match _check_same_codecs codecs with
              | .error e => .error e
              | .ok _ =>
                -- lines 163-167 of the source compute the intended shape,
                -- which line 173 then rebinds to the Ellipsis object
                let _intended_new_shape : List Nat :=
                  match shapes with
                  | [] => []
                  | first_shape :: _ =>
                      first_shape.set ax ((shapes.map (fun s => s.getD ax 0)).sum)
                let new_shape : ShapeArg := .ellipsisObj
                match concat_manifests (arrays.map ManifestArray._manifest) ax with
                | none => .error (.valueError unpack_error_msg)
                | some concatenated_manifest =>
                  match arrays with
                  | [] => .error (.valueError unpack_error_msg)
                  | a0 :: _ =>
                      .ok { _manifest := concatenated_manifest,
                            _zarray := _replace_shape a0._zarray new_shape }

/-- Loop of `result_type`: compare every later dtype against the first;
the raised message does not mention the offending values. -/
def result_type_rest (first : String) : List String → Except PyError String
  | [] => .ok first
  | other :: rest =>
    if other = first then result_type_rest first rest
    else .error (.valueError "dtypes not all consistent")

/-- Embeds module-level `result_type(*arrays_and_dtypes)`: normalize every
argument with `np.dtype`, require them all equal, return the first. -/
def result_type (arrays_and_dtypes : List String) : Except PyError String :=
  match arrays_and_dtypes.map np_dtype with
  | [] => .error (.valueError unpack_error_msg)
  | first :: others => result_type_rest first others

/-- A Python runtime type, as it appears in the `types` argument of
`__array_function__`: the `ManifestArray` class itself, a subclass of it,
or any unrelated type. -/
inductive PyType where
  | manifestArrayType
  | manifestArraySubtype (name : String)
  | otherType (name : String)
deriving DecidableEq, Repr

/-- Embeds `issubclass(t, ManifestArray)` (a class is a subclass of
itself). -/
def PyType.isSubclassOfManifestArray : PyType → Bool
  | .manifestArrayType => true
  | .manifestArraySubtype _ => true
  | .otherType _ => false

/-- A numpy-function invocation as forwarded to `__array_function__`:
the function identity together with its `args`/`kwargs`.  The registry
`HANDLED_ARRAY_FUNCTIONS` is populated by the two `@implements`
decorators, for `np.concatenate` and `np.result_type`. -/
inductive NpFunc where
  | npConcatenate (arrays : List ManifestArray) (axis : Option Nat)
  | npResultType (arrays_and_dtypes : List String)
  | otherFunc (name : String)
deriving DecidableEq, Repr

/-- Embeds the registry membership test `func in HANDLED_ARRAY_FUNCTIONS`:
only `np.concatenate` and `np.result_type` are registered. -/
def inHandledArrayFunctions : NpFunc → Bool
  | .npConcatenate _ _ => true
  | .npResultType _ => true
  | .otherFunc _ => false

/-- Result of an array-protocol hook call: the `NotImplemented` sentinel,
a raised exception, or a returned value (an array for `concatenate`, a
dtype for `result_type`). -/
inductive HookResult where
  | notHandled
  | raised (e : PyError)
  | arrayResult (a : ManifestArray)
  | dtypeResult (d : String)
deriving DecidableEq, Repr

/-- Embeds `HANDLED_ARRAY_FUNCTIONS[func](*args, **kwargs)`: run the
registered implementation on the forwarded arguments. -/
def dispatchHandled : NpFunc → HookResult
  | .npConcatenate arrays axis =>
      match concatenate arrays axis with
      | .ok a => .arrayResult a
      | .error e => .raised e
  | .npResultType ds =>
      match result_type ds with
      | .ok d => .dtypeResult d
      | .error e => .raised e
  | .otherFunc _ => .notHandled

/-- Embeds `ManifestArray.__array_function__(self, func, types, args,
kwargs)`: return `NotImplemented` if the function is unregistered or any
operand type is not `ManifestArray` or a subclass, else dispatch. -/
def ManifestArray.dunder_array_function (_self : ManifestArray) (func : NpFunc)
    (types : List PyType) : HookResult :=
  if inHandledArrayFunctions func = false then .notHandled
  else if types.all PyType.isSubclassOfManifestArray = false then .notHandled
  else dispatchHandled func

/-- An arbitrary Python object, for the `inputs` of `__array_ufunc__`. -/
inductive PyObj where
  | arrObj (a : ManifestArray)
  | strObj (s : String)
  | intObj (n : Int)
deriving DecidableEq, Repr

/-- Embeds `ManifestArray.__array_ufunc__(self, ufunc, method, *inputs,
**kwargs)`: unconditionally returns the `NotImplemented` sentinel. -/
def ManifestArray.dunder_array_ufunc (_self : ManifestArray) (_ufunc _method : String)
    (_inputs : List PyObj) (_kwargs : List (String × String)) : HookResult :=
  .notHandled

/-- Does the character list `msg` start with the character list `sub`? -/
def listStartsWith : List Char → List Char → Bool
  | _, [] => true
  | [], _ :: _ => false
  | c :: cs, d :: ds => c = d && listStartsWith cs ds

/-- Does the character list `msg` contain `sub` as a contiguous run? -/
def listContainsSub : List Char → List Char → Bool
  | [], sub => sub.isEmpty
  | msg@(_ :: rest), sub => listStartsWith msg sub || listContainsSub rest sub

/-- Does the string `msg` contain the string `sub` as a substring?  Used
to state that an error message names a conflicting value. -/
def strContains (msg sub : String) : Bool :=
  listContainsSub msg.data sub.data

/- Concrete inputs used by the scenario evaluations and witnesses. -/

/-- A codec shared by the compatible example arrays. -/
def exCodec : Codec := { compressor := "zlib", filters := "shuffle" }

/-- A second, different codec. -/
def exCodec2 : Codec := { compressor := "blosc", filters := "none" }

/-- Metadata of the first scenario array: shape (3,4), one chunk. -/
def exZ1 : ZArray :=
  { shape := [3, 4], chunks := [3, 4], dtype := "float64", codec := exCodec }

/-- Metadata of the second scenario array: shape (5,4), one chunk. -/
def exZ2 : ZArray :=
  { shape := [5, 4], chunks := [5, 4], dtype := "float64", codec := exCodec }

/-- Manifest of the first scenario array: one entry at (0,0). -/
def exM1 : ChunkManifest :=
  { grid_shape := [1, 1],
    entries := [([0, 0], { path := "a.nc", offset := 100, length := 96 })] }

/-- Manifest of the second scenario array: one entry at (0,0). -/
def exM2 : ChunkManifest :=
  { grid_shape := [1, 1],
    entries := [([0, 0], { path := "b.nc", offset := 200, length := 160 })] }

/-- First scenario Virtual Array, shape (3,4). -/
def exA : ManifestArray := ManifestArray.init exZ1 exM1

/-- Second scenario Virtual Array, shape (5,4). -/
def exB : ManifestArray := ManifestArray.init exZ2 exM2

/-- Like `exB` but with dtype int32: the dtype-mismatch scenario. -/
def exBint : ManifestArray :=
  ManifestArray.init { exZ2 with dtype := "int32" } exM2

/-- Like `exB` but with a different codec: the codec-mismatch scenario. -/
def exBcodec : ManifestArray :=
  ManifestArray.init { exZ2 with codec := exCodec2 } exM2

/-- An array whose shape product is exactly 2^64, overflowing int64. -/
def exBig : ManifestArray :=
  ManifestArray.init
    { shape := [4294967296, 4294967296], chunks := [1, 1], dtype := "int8",
      codec := exCodec }
    { grid_shape := [4294967296, 4294967296], entries := [] }

/-- An array whose shape product exceeds 32-bit range but fits int64. -/
def exMid : ManifestArray :=
  ManifestArray.init
    { shape := [65536, 65537], chunks := [65536, 65537], dtype := "int8",
      codec := exCodec }
    { grid_shape := [1, 1],
      entries := [([0, 0], { path := "c.nc", offset := 0, length := 4295032832 })] }

/-- The concatenated manifest of the two scenario arrays, as the merge
algorithm produces it: grid (2,1), entries at (0,0) and (1,0). -/
def exConcatM : ChunkManifest :=
  { grid_shape := [2, 1],
    entries := [([0, 0], { path := "a.nc", offset := 100, length := 96 }),
                ([1, 0], { path := "b.nc", offset := 200, length := 160 })] }

/-- The object `concatenate` actually constructs for the scenario: the
correct manifest, but no metadata, because `_replace_shape` returns
`None`. -/
def exConcatResult : ManifestArray :=
  { _manifest := exConcatM, _zarray := none }

/- Helper lemmas about the substring predicate and int64 wraparound. -/

theorem listStartsWith_nil (msg : List Char) : listStartsWith msg [] = true := by
  cases msg <;> rfl

theorem listStartsWith_self_append (s t : List Char) :
    listStartsWith (s ++ t) s = true := by
  induction s with
  | nil => simpa using listStartsWith_nil t
  | cons c cs ih => simp [listStartsWith, ih]

theorem listStartsWith_self (s : List Char) : listStartsWith s s = true := by
  simpa using listStartsWith_self_append s []

theorem listContainsSub_of_startsWith {msg sub : List Char}
    (h : listStartsWith msg sub = true) : listContainsSub msg sub = true := by
  cases msg with
  | nil =>
      cases sub with
      | nil => rfl
      | cons d ds => simp [listStartsWith] at h
  | cons c cs => simp [listContainsSub, h]

theorem listContainsSub_append_left (pre msg sub : List Char)
    (h : listContainsSub msg sub = true) : listContainsSub (pre ++ msg) sub = true := by
  induction pre with
  | nil => simpa using h
  | cons c cs ih => simp [listContainsSub, ih]

theorem listContainsSub_pre_mid (pre mid suf : List Char) :
    listContainsSub (pre ++ (mid ++ suf)) mid = true :=
  listContainsSub_append_left pre _ _
    (listContainsSub_of_startsWith (listStartsWith_self_append mid suf))

theorem strContains_append_right (pre mid : String) :
    strContains (pre ++ mid) mid = true := by
  unfold strContains
  rw [String.data_append]
  exact listContainsSub_append_left pre.data _ _
    (listContainsSub_of_startsWith (listStartsWith_self mid.data))

theorem strContains_mid (pre mid suf : String) :
    strContains (pre ++ mid ++ suf) mid = true := by
  unfold strContains
  rw [String.data_append, String.data_append, List.append_assoc]
  exact listContainsSub_pre_mid pre.data mid.data suf.data

theorem dtype_msg_contains_other (other first : String) :
    strContains (dtype_mismatch_msg other first) other = true := by
  unfold dtype_mismatch_msg strContains
  simp only [String.data_append, List.append_assoc]
  exact listContainsSub_append_left _ _ _
    (listContainsSub_of_startsWith (listStartsWith_self_append _ _))

theorem dtype_msg_contains_first (other first : String) :
    strContains (dtype_mismatch_msg other first) first = true := by
  unfold dtype_mismatch_msg
  exact strContains_append_right _ first

theorem shape_msg_contains_shapes (shapes : List (List Nat)) :
    strContains (shape_mismatch_msg shapes) (pyReprShapes shapes) = true := by
  unfold shape_mismatch_msg
  exact strContains_append_right _ _

theorem codec_msg_contains_first (first other : Codec) :
    strContains (codec_mismatch_msg first other) first.pyRepr = true := by
  unfold codec_mismatch_msg strContains
  simp only [String.data_append, List.append_assoc]
  exact listContainsSub_append_left _ _ _ (listContainsSub_append_left _ _ _
    (listContainsSub_of_startsWith (listStartsWith_self_append _ _)))

theorem codec_msg_contains_other (first other : Codec) :
    strContains (codec_mismatch_msg first other) other.pyRepr = true := by
  unfold codec_mismatch_msg strContains
  simp only [String.data_append, List.append_assoc]
  exact listContainsSub_append_left _ _ _ (listContainsSub_append_left _ _ _
    (listContainsSub_append_left _ _ _ (listContainsSub_append_left _ _ _
      (listContainsSub_of_startsWith (listStartsWith_self_append _ _)))))

theorem int64_wrap_add_mul (a m : Int) :
    int64_wrap (a + 18446744073709551616 * m) = int64_wrap a := by
  unfold int64_wrap
  have h : a + 18446744073709551616 * m + 9223372036854775808
      = a + 9223372036854775808 + 18446744073709551616 * m := by ring
  rw [h, Int.add_mul_emod_self_left]

theorem int64_wrap_mul_left (x y : Int) :
    int64_wrap (int64_wrap x * y) = int64_wrap (x * y) := by
  have hx : int64_wrap x
      = x - 18446744073709551616 * ((x + 9223372036854775808) / 18446744073709551616) := by
    unfold int64_wrap
    rw [Int.emod_def]
    ring
  rw [hx]
  have h2 : (x - 18446744073709551616 * ((x + 9223372036854775808) / 18446744073709551616)) * y
      = x * y + 18446744073709551616
          * (-(((x + 9223372036854775808) / 18446744073709551616) * y)) := by ring
  rw [h2, int64_wrap_add_mul]

theorem np_prod_go_wrap (l : List Nat) : ∀ x : Int,
    np_prod_go (int64_wrap x) l = int64_wrap (x * (listProd l : Int)) := by
  induction l with
  | nil => intro x; simp [np_prod_go, listProd]
  | cons a t ih =>
    intro x
    show np_prod_go (int64_wrap (int64_wrap x * (a : Int))) t = _
    rw [int64_wrap_mul_left, ih (x * (a : Int))]
    congr 1
    have : (listProd (a :: t) : Int) = (a : Int) * (listProd t : Int) := by
      simp [listProd]
    rw [this]
    ring

theorem np_prod_int64_eq_wrap (l : List Nat) :
    np_prod_int64 l = int64_wrap (listProd l : Int) := by
  have h1 : (1 : Int) = int64_wrap 1 := by decide
  unfold np_prod_int64
  rw [h1, np_prod_go_wrap l 1, one_mul]

theorem int64_wrap_eq_self {p : Int} (h0 : 0 ≤ p) (h1 : p < 9223372036854775808) :
    int64_wrap p = p := by
  unfold int64_wrap
  rw [Int.emod_eq_of_lt (by omega) (by omega)]
  omega

/- Characterizations of the validator failure values. -/

theorem check_dtypes_rest_error (first : String) :
    ∀ (rest : List String) (e : PyError), check_dtypes_rest first rest = .error e →
      ∃ other, other ∈ rest ∧ e = .valueError (dtype_mismatch_msg other first) := by
  intro rest
  induction rest with
  | nil => intro e h; simp [check_dtypes_rest] at h
  | cons other rest ih =>
    intro e h
    by_cases hof : other = first
    · rw [check_dtypes_rest, if_pos hof] at h
      obtain ⟨o, ho, he⟩ := ih e h
      exact ⟨o, List.mem_cons_of_mem _ ho, he⟩
    · rw [check_dtypes_rest, if_neg hof] at h
      cases h
      exact ⟨other, List.mem_cons_self _ _, rfl⟩

theorem check_codecs_rest_error (first : Codec) :
    ∀ (rest : List Codec) (e : PyError), check_codecs_rest first rest = .error e →
      ∃ other, other ∈ rest ∧ e = .notImplementedError (codec_mismatch_msg first other) := by
  intro rest
  induction rest with
  | nil => intro e h; simp [check_codecs_rest] at h
  | cons other rest ih =>
    intro e h
    by_cases hof : other = first
    · rw [check_codecs_rest, if_pos hof] at h
      obtain ⟨o, ho, he⟩ := ih e h
      exact ⟨o, List.mem_cons_of_mem _ ho, he⟩
    · rw [check_codecs_rest, if_neg hof] at h
      cases h
      exact ⟨other, List.mem_cons_self _ _, rfl⟩

theorem check_shapes_rest_error (shapes : List (List Nat)) (first : List Nat) :
    ∀ (rest : List (List Nat)) (e : PyError), check_shapes_rest shapes first rest = .error e →
      e = .valueError (shape_mismatch_msg shapes) := by
  intro rest
  induction rest with
  | nil => intro e h; simp [check_shapes_rest] at h
  | cons other rest ih =>
    intro e h
    by_cases hof : other = first
    · rw [check_shapes_rest, if_pos hof] at h
      exact ih e h
    · rw [check_shapes_rest, if_neg hof] at h
      cases h
      rfl

theorem result_type_rest_error (first : String) :
    ∀ (rest : List String) (e : PyError), result_type_rest first rest = .error e →
      e = .valueError "dtypes not all consistent" := by
  intro rest
  induction rest with
  | nil => intro e h; simp [result_type_rest] at h
  | cons other rest ih =>
    intro e h
    by_cases hof : other = first
    · rw [result_type_rest, if_pos hof] at h
      exact ih e h
    · rw [result_type_rest, if_neg hof] at h
      cases h
      rfl

/- Claim theorems. -/

/-- C9: constructing a Virtual Array from a metadata descriptor and a
manifest and reading back the shape, dtype and chunk-shape properties
yields exactly the descriptor's shape, dtype and chunk shape, and the
manifest property yields the input manifest unchanged. -/
theorem manifest_array_round_trip (z : ZArray) (m : ChunkManifest) :
    (ManifestArray.init z m).shape = .ok z.shape
    ∧ (ManifestArray.init z m).dtype = .ok z.dtype
    ∧ (ManifestArray.init z m).chunks = .ok z.chunks
    ∧ (ManifestArray.init z m).manifest = m := by
  refine ⟨?_, rfl, rfl, rfl⟩
  simp [ManifestArray.init, ManifestArray.shape]

/-- C10: calling `concatenate` without an explicit axis argument uses the
default axis 0, so the result equals that of calling it with axis 0. -/
theorem concatenate_default_axis_is_zero (arrays : List ManifestArray) :
    concatenate arrays = concatenate arrays (some 0) := rfl

/-- C4: for every group of arrays, `concatenate` with axis `None` fails
with a not-implemented condition; the equation holds for all inputs
(compatible or not), so no validator runs and nothing is constructed. -/
theorem concatenate_axis_none_fails (arrays : List ManifestArray) :
    concatenate arrays none
      = .error (.notImplementedError
          "If axis=None the array API requires flattening, which is a reshape, which can\x27t be implemented on a ManifestArray.") := rfl

/-- C6: forbidden operations fail explicitly: dense conversion raises an
unsupported-operation (`NotImplementedError`) condition, writing to a
store raises, and the ufunc hook returns the not-handled sentinel (for
every ufunc, method, inputs and kwargs) instead of raising. -/
theorem forbidden_operations_fail (a : ManifestArray) (store ufunc method : String)
    (inputs : List PyObj) (kwargs : List (String × String)) :
    a.dunder_array
      = .error (.notImplementedError
          "ManifestArrays can\x27t be converted into numpy arrays or pandas Index objects")
    ∧ a.to_zarr store
      = .error (.notImplementedError
          "Requires the chunk manifest ZEP to be formalized before we know what to write out here.")
    ∧ a.dunder_array_ufunc ufunc method inputs kwargs = .notHandled :=
  ⟨rfl, rfl, rfl⟩

/-- C1: evaluating `concatenate` at the spec scenario (shapes (3,4) and
(5,4), same float64 dtype, same codec, axis 0): the merged manifest is
the expected one (grid (2,1), entries at (0,0) and (1,0)), but the
returned object carries no metadata — the computed new shape is rebound
to Ellipsis on line 173 and the `_replace_shape` stub returns `None` — so
reading the result's shape raises `AttributeError` instead of giving
(8,4). -/
theorem concatenate_returns_metadata_free_array :
    concatenate [exA, exB] (some 0) = .ok exConcatResult
    ∧ exConcatResult._zarray = none
    ∧ exConcatResult.shape
        = .error (.attributeError "NoneType object has no attribute shape") :=
  ⟨rfl, rfl, rfl⟩

/-- C8 counterexample: `size` is not the exact product once it exceeds
the signed 64-bit range: for shape (4294967296, 4294967296) the exact
product is 2^64 but `size` returns 0. -/
theorem size_not_exact_beyond_int64 :
    ManifestArray.size exBig = .ok 0
    ∧ (listProd [4294967296, 4294967296] : Int) = 18446744073709551616
    ∧ (0 : Int) ≠ 18446744073709551616 :=
  ⟨rfl, by decide, by decide⟩

/-- C8 (amended): `size` is the product of the shape entries accumulated
in wrapping signed 64-bit arithmetic (numpy int64), hence exact for every
product below 2^63 — in particular beyond 32-bit range — but wrapping,
not exact, past the 64-bit range. -/
theorem size_is_int64_product (a : ManifestArray) (z : ZArray)
    (h : a._zarray = some z) :
    a.size = .ok (int64_wrap (listProd z.shape : Int))
    ∧ ((listProd z.shape : Int) < 9223372036854775808 →
        a.size = .ok ((listProd z.shape : Int))) := by
  have hs : a.shape = .ok z.shape := by
    simp [ManifestArray.shape, h]
  constructor
  · simp [ManifestArray.size, hs, np_prod_int64_eq_wrap]
  · intro hlt
    simp [ManifestArray.size, hs, np_prod_int64_eq_wrap,
          int64_wrap_eq_self (Int.natCast_nonneg _) hlt]

/-- C8 witness: the amended theorem applied to a concrete array with a
product above 2^32 and below 2^63 gives the exact product. -/
theorem size_is_int64_product_witness :
    ManifestArray.size exMid = .ok ((listProd [65536, 65537] : Int)) :=
  (size_is_int64_product exMid
      { shape := [65536, 65537], chunks := [65536, 65537], dtype := "int8",
        codec := exCodec } rfl).2 (by decide)

/-- C5: the `__array_function__` hook returns the not-handled sentinel
when the requested function is not in the registry or some operand type
is not `ManifestArray` or a subclass of it; otherwise it dispatches to
and returns the result of the registered implementation. -/
theorem array_function_dispatch (self : ManifestArray) (func : NpFunc)
    (types : List PyType) :
    ((inHandledArrayFunctions func = false
        ∨ ∃ t ∈ types, t.isSubclassOfManifestArray = false) →
      self.dunder_array_function func types = .notHandled)
    ∧ (inHandledArrayFunctions func = true →
       (∀ t ∈ types, t.isSubclassOfManifestArray = true) →
       self.dunder_array_function func types = dispatchHandled func) := by
  constructor
  · rintro (h | ⟨t, ht, hsub⟩)
    · simp [ManifestArray.dunder_array_function, h]
    · have hall : types.all PyType.isSubclassOfManifestArray = false := by
        cases hAll : types.all PyType.isSubclassOfManifestArray with
        | false => rfl
        | true =>
            have := List.all_eq_true.mp hAll t ht
            rw [hsub] at this
            cases this
      cases hreg : inHandledArrayFunctions func with
      | false => simp [ManifestArray.dunder_array_function, hreg]
      | true => simp [ManifestArray.dunder_array_function, hreg, hall]
  · intro hreg hall
    have hAll : types.all PyType.isSubclassOfManifestArray = true :=
      List.all_eq_true.mpr hall
    simp [ManifestArray.dunder_array_function, hreg, hAll]

/-- C5 witness: an unregistered function is declined, and a registered
call on ManifestArray-typed operands is dispatched. -/
theorem array_function_dispatch_witness :
    ManifestArray.dunder_array_function exA (NpFunc.otherFunc "np.mean")
        [PyType.otherType "ndarray"] = .notHandled
    ∧ ManifestArray.dunder_array_function exA
        (NpFunc.npConcatenate [exA, exB] (some 0))
        [PyType.manifestArrayType, PyType.manifestArrayType]
      = dispatchHandled (NpFunc.npConcatenate [exA, exB] (some 0)) :=
  ⟨(array_function_dispatch exA (NpFunc.otherFunc "np.mean")
      [PyType.otherType "ndarray"]).1 (Or.inl rfl),
   (array_function_dispatch exA (NpFunc.npConcatenate [exA, exB] (some 0))
      [PyType.manifestArrayType, PyType.manifestArrayType]).2 rfl (by decide)⟩

/-- C2: `concatenate` runs all three compatibility validators before any
output is constructed: a successful result implies all three checks
passed on the arrays' dtypes, shapes and codecs, and a failure of any
check makes `concatenate` return exactly that check's error — no output
array is produced (the embedding is a pure function, so the inputs are
untouched in every case). -/
theorem concatenate_validates_before_construction (arrays : List ManifestArray) (ax : Nat) :
    (∀ out, concatenate arrays (some ax) = .ok out →
       ∃ dtypes shapes codecs,
         map_attr ManifestArray.dtype arrays = .ok dtypes
         ∧ _check_same_dtypes dtypes = .ok ()
         ∧ map_attr ManifestArray.shape arrays = .ok shapes
         ∧ _check_same_shapes_except_on_concat_axis shapes ax = .ok ()
         ∧ map_attr ManifestArray.zarray_codec arrays = .ok codecs
         ∧ _check_same_codecs codecs = .ok ())
    ∧ (∀ dtypes e, map_attr ManifestArray.dtype arrays = .ok dtypes →
         _check_same_dtypes dtypes = .error e →
         concatenate arrays (some ax) = .error e)
    ∧ (∀ dtypes shapes e, map_attr ManifestArray.dtype arrays = .ok dtypes →
         _check_same_dtypes dtypes = .ok () →
         map_attr ManifestArray.shape arrays = .ok shapes →
         _check_same_shapes_except_on_concat_axis shapes ax = .error e →
         concatenate arrays (some ax) = .error e)
    ∧ (∀ dtypes shapes codecs e, map_attr ManifestArray.dtype arrays = .ok dtypes →
         _check_same_dtypes dtypes = .ok () →
         map_attr ManifestArray.shape arrays = .ok shapes →
         _check_same_shapes_except_on_concat_axis shapes ax = .ok () →
         map_attr ManifestArray.zarray_codec arrays = .ok codecs →
         _check_same_codecs codecs = .error e →
         concatenate arrays (some ax) = .error e) := by
  refine ⟨?_, ?_, ?_, ?_⟩
  · intro out hout
    unfold concatenate at hout
    dsimp only at hout
    cases h1 : map_attr ManifestArray.dtype arrays with
    | error e => rw [h1] at hout; simp at hout
    | ok dtypes =>
    rw [h1] at hout
    dsimp only at hout
    cases h2 : _check_same_dtypes dtypes with
    | error e => rw [h2] at hout; simp at hout
    | ok u2 =>
    rw [h2] at hout
    dsimp only at hout
    cases h3 : map_attr ManifestArray.shape arrays with
    | error e => rw [h3] at hout; simp at hout
    | ok shapes =>
    rw [h3] at hout
    dsimp only at hout
    cases h4 : _check_same_shapes_except_on_concat_axis shapes ax with
    | error e => rw [h4] at hout; simp at hout
    | ok u4 =>
    rw [h4] at hout
    dsimp only at hout
    cases h5 : map_attr ManifestArray.zarray_codec arrays with
    | error e => rw [h5] at hout; simp at hout
    | ok codecs =>
    rw [h5] at hout
    dsimp only at hout
    cases h6 : _check_same_codecs codecs with
    | error e => rw [h6] at hout; simp at hout
    | ok u6 =>
    cases u2; cases u4; cases u6
    exact ⟨dtypes, shapes, codecs, rfl, h2, rfl, h4, rfl, h6⟩
  · intro dtypes e h1 h2
    unfold concatenate
    dsimp only
    rw [h1]
    dsimp only
    rw [h2]
  · intro dtypes shapes e h1 h2 h3 h4
    unfold concatenate
    dsimp only
    rw [h1]
    dsimp only
    rw [h2]
    dsimp only
    rw [h3]
    dsimp only
    rw [h4]
  · intro dtypes shapes codecs e h1 h2 h3 h4 h5 h6
    unfold concatenate
    dsimp only
    rw [h1]
    dsimp only
    rw [h2]
    dsimp only
    rw [h3]
    dsimp only
    rw [h4]
    dsimp only
    rw [h5]
    dsimp only
    rw [h6]

/-- C2 witness: on a concrete dtype-incompatible pair the dtype check
fails and `concatenate` propagates exactly that error. -/
theorem concatenate_validates_before_construction_witness :
    concatenate [exA, exBint] (some 0)
      = .error (.valueError (dtype_mismatch_msg "int32" "float64")) :=
  (concatenate_validates_before_construction [exA, exBint] 0).2.1
    ["float64", "int32"] (.valueError (dtype_mismatch_msg "int32" "float64")) rfl rfl

/-- C7 (amended): with equal dtypes and equal off-axis shapes but a codec
mismatch, `concatenate` fails with a condition that names both codecs,
but the condition is a `NotImplementedError` — the kind shared with the
permanently unsupported operations — not the `ValueError` kind used for
dtype and shape mismatches. -/
theorem codec_mismatch_uses_not_implemented_kind (arrays : List ManifestArray)
    (ax : Nat) (dtypes : List String) (shapes : List (List Nat))
    (c1 c2 : Codec) (cs : List Codec)
    (h1 : map_attr ManifestArray.dtype arrays = .ok dtypes)
    (h2 : _check_same_dtypes dtypes = .ok ())
    (h3 : map_attr ManifestArray.shape arrays = .ok shapes)
    (h4 : _check_same_shapes_except_on_concat_axis shapes ax = .ok ())
    (h5 : map_attr ManifestArray.zarray_codec arrays = .ok (c1 :: c2 :: cs))
    (h6 : c2 ≠ c1) :
    concatenate arrays (some ax)
      = .error (.notImplementedError (codec_mismatch_msg c1 c2))
    ∧ PyError.isNotImplementedError
        (.notImplementedError (codec_mismatch_msg c1 c2)) = true
    ∧ PyError.isValueError (.notImplementedError (codec_mismatch_msg c1 c2)) = false
    ∧ strContains (codec_mismatch_msg c1 c2) c1.pyRepr = true
    ∧ strContains (codec_mismatch_msg c1 c2) c2.pyRepr = true := by
  have hcheck : _check_same_codecs (c1 :: c2 :: cs)
      = .error (.notImplementedError (codec_mismatch_msg c1 c2)) := by
    rw [_check_same_codecs, check_codecs_rest, if_neg h6]
  refine ⟨?_, rfl, rfl, codec_msg_contains_first c1 c2, codec_msg_contains_other c1 c2⟩
  unfold concatenate
  dsimp only
  rw [h1]
  dsimp only
  rw [h2]
  dsimp only
  rw [h3]
  dsimp only
  rw [h4]
  dsimp only
  rw [h5]
  dsimp only
  rw [hcheck]

/-- C7 counterexample: on concrete arrays with equal dtypes and shapes
but different codecs, the failure is of the `NotImplementedError` kind,
while the dtype mismatch on the same inputs but differing dtypes is a
`ValueError` — so the codec condition is not of the same kind as the
dtype and shape mismatch conditions, contrary to the claim. -/
theorem codec_mismatch_kind_counterexample :
    concatenate [exA, exBcodec] (some 0)
      = .error (.notImplementedError (codec_mismatch_msg exCodec exCodec2))
    ∧ PyError.isValueError
        (.notImplementedError (codec_mismatch_msg exCodec exCodec2)) = false
    ∧ concatenate [exA, exBint] (some 0)
      = .error (.valueError (dtype_mismatch_msg "int32" "float64"))
    ∧ PyError.isValueError
        (.valueError (dtype_mismatch_msg "int32" "float64")) = true :=
  ⟨rfl, rfl, rfl, rfl⟩

/-- C7 witness: the amended theorem applied to the concrete
codec-mismatch pair. -/
theorem codec_mismatch_uses_not_implemented_kind_witness :
    concatenate [exA, exBcodec] (some 0)
      = .error (.notImplementedError (codec_mismatch_msg exCodec exCodec2)) :=
  (codec_mismatch_uses_not_implemented_kind [exA, exBcodec] 0
    ["float64", "float64"] [[3, 4], [5, 4]] exCodec exCodec2 []
    rfl rfl rfl rfl rfl (by decide)).1

/-- C3 (amended): the three compatibility validators name the conflicting
values in their failure messages — the dtype and codec messages contain
both members of the first conflicting pair, and the shape message
contains the rendering of the full list of input shapes — but the
dtype-resolution helper `result_type` fails with the fixed message
"dtypes not all consistent" (or the generic unpack error on an empty
argument list), which names no values. -/
theorem validator_messages_name_values :
    (∀ (first : String) (rest : List String) (e : PyError),
       _check_same_dtypes (first :: rest) = .error e →
       ∃ other, other ∈ rest
         ∧ e = .valueError (dtype_mismatch_msg other first)
         ∧ strContains (dtype_mismatch_msg other first) other = true
         ∧ strContains (dtype_mismatch_msg other first) first = true)
    ∧ (∀ (shapes : List (List Nat)) (ax : Nat) (e : PyError), shapes ≠ [] →
         _check_same_shapes_except_on_concat_axis shapes ax = .error e →
         e = .valueError (shape_mismatch_msg shapes)
         ∧ strContains (shape_mismatch_msg shapes) (pyReprShapes shapes) = true)
    ∧ (∀ (first : Codec) (rest : List Codec) (e : PyError),
         _check_same_codecs (first :: rest) = .error e →
         ∃ other, other ∈ rest
           ∧ e = .notImplementedError (codec_mismatch_msg first other)
           ∧ strContains (codec_mismatch_msg first other) first.pyRepr = true
           ∧ strContains (codec_mismatch_msg first other) other.pyRepr = true)
    ∧ (∀ (ds : List String) (e : PyError), result_type ds = .error e →
         e = .valueError "dtypes not all consistent" ∨ e = .valueError unpack_error_msg) := by
  refine ⟨?_, ?_, ?_, ?_⟩
  · intro first rest e h
    rw [_check_same_dtypes] at h
    obtain ⟨other, ho, he⟩ := check_dtypes_rest_error first rest e h
    exact ⟨other, ho, he, dtype_msg_contains_other other first,
           dtype_msg_contains_first other first⟩
  · intro shapes ax e hne h
    refine ⟨?_, shape_msg_contains_shapes shapes⟩
    cases shapes with
    | nil => exact absurd rfl hne
    | cons s ss =>
        rw [_check_same_shapes_except_on_concat_axis] at h
        dsimp only [List.map] at h
        exact check_shapes_rest_error (s :: ss) _ _ e h
  · intro first rest e h
    rw [_check_same_codecs] at h
    obtain ⟨other, ho, he⟩ := check_codecs_rest_error first rest e h
    exact ⟨other, ho, he, codec_msg_contains_first first other,
           codec_msg_contains_other first other⟩
  · intro ds e h
    cases ds with
    | nil => right; cases h; rfl
    | cons d ds =>
        left
        rw [result_type] at h
        dsimp only [List.map, np_dtype] at h
        exact result_type_rest_error d (List.map np_dtype ds) e h

/-- C3 counterexample: `result_type` is an incompatibility failure of the
system, yet its message on conflicting dtypes float64 and int32 contains
neither value. -/
theorem result_type_message_lacks_values :
    result_type ["float64", "int32"]
      = .error (.valueError "dtypes not all consistent")
    ∧ strContains "dtypes not all consistent" "float64" = false
    ∧ strContains "dtypes not all consistent" "int32" = false :=
  ⟨rfl, by decide, by decide⟩

/-- C3 witness: the amended theorem applied to a concrete dtype mismatch
and a concrete shape mismatch. -/
theorem validator_messages_name_values_witness :
    strContains (dtype_mismatch_msg "int32" "float64") "int32" = true
    ∧ strContains (shape_mismatch_msg [[3, 4], [5, 5]])
        (pyReprShapes [[3, 4], [5, 5]]) = true := by
  constructor
  · obtain ⟨other, hmem, he, hc1, hc2⟩ :=
      validator_messages_name_values.1 "float64" ["int32"]
        (.valueError (dtype_mismatch_msg "int32" "float64")) rfl
    have hoth : other = "int32" := by simpa using hmem
    rw [hoth] at hc1
    exact hc1
  · exact (validator_messages_name_values.2.1 [[3, 4], [5, 5]] 0
      (.valueError (shape_mismatch_msg [[3, 4], [5, 5]]))
      (by simp) rfl).2
